import Mathlib

/-!
Shallow embedding of `youtube_audio_bot.py`: a Telegram bot that downloads
YouTube audio (via yt-dlp) and stores per-user playlists in a PostgreSQL
table `playlists (user_id BIGINT, playlist_name TEXT, song_title TEXT,
song_url TEXT, PRIMARY KEY (user_id, playlist_name, song_url))`.

The database is modelled as a list of rows; a SQL `INSERT` is modelled as
`insertRow`, which fails with `DBError.integrityError` exactly when the
composite primary key is already present (psycopg2 raises
`psycopg2.IntegrityError` in that case).  The external fetch-and-transcode
capability (yt-dlp `extract_info`) is modelled by a `FetchOutcome` argument:
either a title and container extension, or an exception message.  Each
Telegram handler is translated as a pure function from its inputs and the
current database to a `HandlerOutcome` recording the resulting database,
the user-visible replies sent (in order), whether an exception escaped the
handler (`raised`), and whether the handler left its resolver temp file on
disk (`tempFileRemains`).

Python string methods used by the source (`str.startswith`, `str.strip`,
`str.split`, `str.replace`, `str.join`) are given structurally recursive
models on `List Char` so that all control flow is kernel-computable.
-/

namespace YoutubeAudioBot

/-- Model of Python `s.startswith(p)`. -/
def pyStartswith (s p : String) : Bool :=
  List.isPrefixOf p.data s.data

/-- Characters removed by Python `str.strip()` with no argument. -/
def pyIsSpace (c : Char) : Bool :=
  c == ' ' || c == '\t' || c == '\n' || c == '\r' || c == '\x0b' || c == '\x0c'

/-- Model of Python `s.strip()`: whitespace removed from both ends. -/
def pyStrip (s : String) : String :=
  String.mk (((s.data.dropWhile pyIsSpace).reverse.dropWhile pyIsSpace).reverse)

/-- Split a character list at every occurrence of `sep`, keeping empty
pieces, as Python `s.split(sep)` does for a one-character separator. -/
def splitCharList (sep : Char) : List Char → List (List Char)
  | [] => [[]]
  | c :: cs =>
    let r := splitCharList sep cs
    if c == sep then [] :: r
    else (c :: r.headD []) :: r.tail

/-- Model of Python `s.split(sep)` for a one-character separator. -/
def pySplit (s : String) (sep : Char) : List String :=
  (splitCharList sep s.data).map String.mk

/-- Fuel-indexed worker for `pyReplace`; the fuel starts at the length of
the list, which bounds the number of steps. -/
def pyReplaceGo (old new : List Char) : Nat → List Char → List Char
  | _, [] => []
  | 0, cs => cs
  | Nat.succ fuel, c :: cs =>
    if List.isPrefixOf old (c :: cs) && !old.isEmpty then
      new ++ pyReplaceGo old new fuel (List.drop old.length (c :: cs))
    else
      c :: pyReplaceGo old new fuel cs

/-- Model of Python `s.replace(old, new)`: replace every non-overlapping
occurrence of `old`, scanning left to right. -/
def pyReplace (s old new : String) : String :=
  String.mk (pyReplaceGo old.data new.data s.data.length s.data)

/-- Row of the `playlists` table created by `init_db` (lines 20-33). -/
structure Row where
  user_id : Int
  playlist_name : String
  song_title : String
  song_url : String
deriving DecidableEq

/-- Contents of the `playlists` table. -/
abbrev DB := List Row

/-- Equality on the composite primary key `(user_id, playlist_name,
song_url)` declared by `init_db` (line 29); `song_title` is not part of
the key. -/
def pkMatches (r s : Row) : Bool :=
  r.user_id == s.user_id && r.playlist_name == s.playlist_name && r.song_url == s.song_url

/-- True when inserting `r` would violate the primary key of `db`. -/
def pkConflict (db : DB) (r : Row) : Bool :=
  db.any (pkMatches r)

/-- Error raised by the storage engine on a key violation
(`psycopg2.IntegrityError`). -/
inductive DBError where
  | integrityError
deriving DecidableEq

/-- SQL `INSERT INTO playlists ... VALUES (...)`: appends the row, or
fails with an integrity error when the primary key is already present. -/
def insertRow (db : DB) (r : Row) : Except DBError DB :=
  if pkConflict db r then Except.error DBError.integrityError
  else Except.ok (db ++ [r])

/-- Outcome of the external yt-dlp fetch-and-transcode capability
(`ydl.extract_info(url_or_query, download=True)` at line 75): on success,
the video title and the container extension of the downloaded file; on
failure, the exception message `str(e)`. -/
inductive FetchOutcome where
  | ok (title ext : String)
  | err (msg : String)
deriving DecidableEq

/-- Search-mode classification in `download_audio` (line 69): a query not
starting with `http` is resolved through `ytsearch1:`. -/
def ydl_search_mode (url_or_query : String) : Bool :=
  !pyStartswith url_or_query "http"

/-- Instantiation of the output template `/tmp/{user_id}_%(title)s.%(ext)s`
(line 59) by `ydl.prepare_filename(info)` (line 77). -/
def prepare_filename (user_id : Int) (title ext : String) : String :=
  "/tmp/" ++ toString user_id ++ "_" ++ title ++ "." ++ ext

/-- Model of `download_audio` (lines 55-80).  The body wraps the fetch in
`try/except Exception`, so the function is total: on success it returns
`(some filename, title)` where `filename` is the prepared name with
`.webm`/`.m4a` rewritten to `.mp3` (line 77); on any fetch exception it
returns `(none, str(e))` (line 80). -/
def download_audio (url_or_query : String) (user_id : Int) (fetch : FetchOutcome) :
    Option String × String :=
  match fetch with
  | FetchOutcome.ok title ext =>
    let filename :=
      pyReplace (pyReplace (prepare_filename user_id title ext) ".webm" ".mp3") ".m4a" ".mp3"
    (some filename, title)
  | FetchOutcome.err e => (none, e)

/-- User-visible replies, one constructor per `reply_text`/`reply_audio`
call site in the source. -/
inductive Reply where
  | usageMessage
  | downloading
  | audio (title : String)
  | downloadFailed (msg : String)
  | usageCreate
  | created (name : String)
  | alreadyExists (name : String)
  | usageAdd
  | addFailed (msg : String)
  | added (title name : String)
  | usageView
  | noSongs (name : String)
  | playlistContents (name : String) (songs : List (String × String))
  | usageDelete
  | deleted (name : String)
deriving DecidableEq

/-- Result of running one handler: the database afterwards, the replies
sent in order, whether an exception escaped the handler, and whether the
handler left its resolver temp file on disk. -/
structure HandlerOutcome where
  db : DB
  replies : List Reply
  raised : Bool
  tempFileRemains : Bool
deriving DecidableEq

/-- Model of `handle_message` (lines 82-99), the bare-text branch.  The
text is stripped; empty input gets a usage hint.  Otherwise a progress
reply is sent, the resolver runs, and on success the audio is delivered
and then `os.remove(filename)` runs (line 97).  `deliveryOk` models
whether `reply_audio` succeeds; when it raises, the `os.remove` on the
following line is never reached, so the temp file remains. -/
def handle_message (user_id : Int) (text : String) (fetch : FetchOutcome)
    (deliveryOk : Bool) (db : DB) : HandlerOutcome :=
  let t := pyStrip text
  if t = "" then
    { db := db, replies := [Reply.usageMessage], raised := false, tempFileRemains := false }
  else
    match download_audio t user_id fetch with
    | (some _filename, title) =>
      if deliveryOk then
        { db := db, replies := [Reply.downloading, Reply.audio title],
          raised := false, tempFileRemains := false }
      else
        { db := db, replies := [Reply.downloading], raised := true, tempFileRemains := true }
    | (none, title) =>
      { db := db, replies := [Reply.downloading, Reply.downloadFailed title],
        raised := false, tempFileRemains := false }

/-- Model of `create_playlist` (lines 101-115).  The name is the
space-join of all arguments (line 106); the sentinel row
`(user_id, name, '', '')` is inserted, and `psycopg2.IntegrityError` is
caught and turned into an already-exists reply (lines 109-114). -/
def create_playlist (user_id : Int) (args : List String) (db : DB) : HandlerOutcome :=
  if args = [] then
    { db := db, replies := [Reply.usageCreate], raised := false, tempFileRemains := false }
  else
    let playlist_name := String.intercalate " " args
    match insertRow db ⟨user_id, playlist_name, "", ""⟩ with
    | Except.ok db2 =>
      { db := db2, replies := [Reply.created playlist_name],
        raised := false, tempFileRemains := false }
    | Except.error _ =>
      { db := db, replies := [Reply.alreadyExists playlist_name],
        raised := false, tempFileRemains := false }

/-- Title recovery in `add_to_playlist` (line 134):
`filename.split('/')[-1].replace('.mp3', '').replace(f'{user_id}_', '')`. -/
def derive_song_title (filename : String) (user_id : Int) : String :=
  pyReplace (pyReplace ((pySplit filename '/').getLastD "") ".mp3" "")
    (toString user_id ++ "_") ""

/-- URL recovery heuristic in `add_to_playlist` (line 133): keep the input
when it starts with `http`, otherwise guess a watch URL. -/
def derive_song_url (song_input : String) : String :=
  if pyStartswith song_input "http" then song_input
  else "https://www.youtube.com/watch?v=" ++ song_input

/-- Model of `add_to_playlist` (lines 117-142).  The playlist name is only
`args[0]` (line 122); the song input is the join of the remaining
arguments (line 123).  After a successful resolve, the row is inserted by
a bare `cursor.execute` with no `try/except` (line 138): on a duplicate
key, `psycopg2.IntegrityError` propagates out of the handler, so neither
the `os.remove(filename)` on line 141 nor the reply on line 142 runs. -/
def add_to_playlist (user_id : Int) (args : List String) (fetch : FetchOutcome)
    (db : DB) : HandlerOutcome :=
  if args.length < 2 then
    { db := db, replies := [Reply.usageAdd], raised := false, tempFileRemains := false }
  else
    let playlist_name := args.headD ""
    let song_input := String.intercalate " " (args.drop 1)
    match download_audio song_input user_id fetch with
    | (none, error) =>
      { db := db, replies := [Reply.addFailed error], raised := false, tempFileRemains := false }
    | (some filename, _title) =>
      let song_url := derive_song_url song_input
      let song_title := derive_song_title filename user_id
      match insertRow db ⟨user_id, playlist_name, song_title, song_url⟩ with
      | Except.ok db2 =>
        { db := db2, replies := [Reply.added song_title playlist_name],
          raised := false, tempFileRemains := false }
      | Except.error _ =>
        { db := db, replies := [], raised := true, tempFileRemains := true }

/-- SQL `SELECT song_title, song_url FROM playlists WHERE user_id = %s AND
playlist_name = %s AND song_title != ''` (line 152). -/
def selectSongs (db : DB) (user_id : Int) (name : String) : List Row :=
  db.filter (fun r => r.user_id == user_id && r.playlist_name == name && r.song_title != "")

/-- Model of `view_playlist` (lines 144-159): the name is the space-join
of all arguments; the non-sentinel rows are selected; an empty selection
gets a no-songs reply, otherwise the titles and urls are listed. -/
def view_playlist (user_id : Int) (args : List String) (db : DB) : HandlerOutcome :=
  if args = [] then
    { db := db, replies := [Reply.usageView], raised := false, tempFileRemains := false }
  else
    let playlist_name := String.intercalate " " args
    let songs := selectSongs db user_id playlist_name
    if songs = [] then
      { db := db, replies := [Reply.noSongs playlist_name],
        raised := false, tempFileRemains := false }
    else
      { db := db,
        replies := [Reply.playlistContents playlist_name
          (songs.map (fun s => (s.song_title, s.song_url)))],
        raised := false, tempFileRemains := false }

/-- SQL `DELETE FROM playlists WHERE user_id = %s AND playlist_name = %s`
(line 169): the remaining rows, paired with the statement rowcount. -/
def deleteRows (db : DB) (user_id : Int) (name : String) : DB × Nat :=
  let remaining := db.filter (fun r => !(r.user_id == user_id && r.playlist_name == name))
  (remaining, db.length - remaining.length)

/-- Model of `delete_playlist` (lines 161-172): the name is the space-join
of all arguments; all matching rows are deleted and a confirmation reply
is sent whether or not any row existed. -/
def delete_playlist (user_id : Int) (args : List String) (db : DB) : HandlerOutcome :=
  if args = [] then
    { db := db, replies := [Reply.usageDelete], raised := false, tempFileRemains := false }
  else
    let playlist_name := String.intercalate " " args
    { db := (deleteRows db user_id playlist_name).1, replies := [Reply.deleted playlist_name],
      raised := false, tempFileRemains := false }

/-- Primary-key conflict for the sentinel row of `(user_id, name)`: some
row with that owner, that playlist name and an empty `song_url` exists.
This is exactly the condition under which `create_playlist` hits the
integrity error. -/
def sentinelConflict (db : DB) (user_id : Int) (name : String) : Bool :=
  pkConflict db ⟨user_id, name, "", ""⟩

/-- Number of rows of `db` whose primary key equals the sentinel key of
`(user_id, name)`. -/
def sentinelRowCount (db : DB) (user_id : Int) (name : String) : Nat :=
  (db.filter (fun r => pkMatches ⟨user_id, name, "", ""⟩ r)).length

/-- Rows of `db` belonging to `user_id`. -/
def ownerRows (db : DB) (user_id : Int) : DB :=
  db.filter (fun r => r.user_id == user_id)

/-- Key equality is reflexive. -/
theorem pkMatches_self (r : Row) : pkMatches r r = true := by
  simp [pkMatches]

/-- Characterisation of the absence of a key conflict. -/
theorem pkConflict_eq_false_iff (db : DB) (r : Row) :
    pkConflict db r = false ↔ ∀ s ∈ db, pkMatches r s = false := by
  simp [pkConflict, List.any_eq_false]

/-- Insertion succeeds when the key is absent. -/
theorem insertRow_of_not_conflict {db : DB} {r : Row} (h : pkConflict db r = false) :
    insertRow db r = Except.ok (db ++ [r]) := by
  simp [insertRow, h]

/-- Insertion fails when the key is present. -/
theorem insertRow_of_conflict {db : DB} {r : Row} (h : pkConflict db r = true) :
    insertRow db r = Except.error DBError.integrityError := by
  simp [insertRow, h]

/-- C1: a second `add_to_playlist` with the same owner, playlist name and
url hits the primary key and the uncaught `psycopg2.IntegrityError`
escapes the handler: `raised` is true and no reply is sent, instead of the
user-facing already-exists outcome the claim requires.  The existing rows
are untouched and `selectSongs` after the first call returns exactly one
matching row. -/
theorem add_duplicate_integrity_error_escapes :
    (add_to_playlist 1 ["p", "https://x"] (FetchOutcome.ok "song" "webm") []).raised = false
  ∧ (add_to_playlist 1 ["p", "https://x"] (FetchOutcome.ok "song" "webm") []).replies
      = [Reply.added "song" "p"]
  ∧ (selectSongs (add_to_playlist 1 ["p", "https://x"] (FetchOutcome.ok "song" "webm") []).db
      1 "p").length = 1
  ∧ (add_to_playlist 1 ["p", "https://x"] (FetchOutcome.ok "song" "webm")
      (add_to_playlist 1 ["p", "https://x"] (FetchOutcome.ok "song" "webm") []).db).raised = true
  ∧ (add_to_playlist 1 ["p", "https://x"] (FetchOutcome.ok "song" "webm")
      (add_to_playlist 1 ["p", "https://x"] (FetchOutcome.ok "song" "webm") []).db).replies = []
  ∧ (add_to_playlist 1 ["p", "https://x"] (FetchOutcome.ok "song" "webm")
      (add_to_playlist 1 ["p", "https://x"] (FetchOutcome.ok "song" "webm") []).db).db
      = (add_to_playlist 1 ["p", "https://x"] (FetchOutcome.ok "song" "webm") []).db := by
  decide

/-- C3: on a duplicate-key failure of the store write, the `add` branch
terminates with an escaped exception and zero user-visible replies, so the
user is left without any response. -/
theorem add_duplicate_leaves_user_without_reply :
    (add_to_playlist 2 ["mix", "https://song"] (FetchOutcome.ok "t" "m4a")
      [⟨2, "mix", "t", "https://song"⟩]).replies = []
  ∧ (add_to_playlist 2 ["mix", "https://song"] (FetchOutcome.ok "t" "m4a")
      [⟨2, "mix", "t", "https://song"⟩]).raised = true := by
  decide

/-- C4: when the store write in `add` fails on a duplicate key, the
`os.remove(filename)` on line 141 is never reached, so the resolver temp
file is not deleted, contrary to the claim that cleanup happens
regardless of the store outcome. -/
theorem add_temp_file_leak_on_store_failure :
    (add_to_playlist 3 ["pl", "https://a"] (FetchOutcome.ok "s" "webm")
      [⟨3, "pl", "s", "https://a"⟩]).tempFileRemains = true
  ∧ (add_to_playlist 3 ["pl", "https://a"] (FetchOutcome.ok "s" "webm")
      [⟨3, "pl", "s", "https://b"⟩]).tempFileRemains = false := by
  decide

/-- C2 counterexample: a row for `(owner, name)` added without a prior
create (non-empty `song_url`) does not make `create_playlist` fail: the
sentinel insert conflicts only on `(user_id, playlist_name, song_url)`,
and its `song_url` is empty, so the create succeeds instead of reporting
that the playlist already exists. -/
theorem create_playlist_succeeds_despite_existing_row :
    (create_playlist 1 ["p"] [⟨1, "p", "t", "https://x"⟩]).replies = [Reply.created "p"]
  ∧ (create_playlist 1 ["p"] [⟨1, "p", "t", "https://x"⟩]).db
      = [⟨1, "p", "t", "https://x"⟩, ⟨1, "p", "", ""⟩] := by
  decide

/-- C8 counterexample: on the bare-text branch with a successful resolve
via search mode, if the audio delivery itself raises, the
`os.remove(filename)` on the next line never runs and the temp file
remains on disk: cleanup is by sequential ordering, not scoped resource
release. -/
theorem handle_message_temp_file_survives_failed_delivery :
    ydl_search_mode "lofi hip hop" = true
  ∧ (handle_message 1 "lofi hip hop" (FetchOutcome.ok "lofi hip hop" "webm")
      false []).tempFileRemains = true
  ∧ (handle_message 1 "lofi hip hop" (FetchOutcome.ok "lofi hip hop" "webm")
      false []).raised = true := by
  decide

/-- C2 (amended): with a non-empty argument list, `create_playlist` fails
with the already-exists reply exactly when a row for `(owner, name)` with
empty `song_url` (a sentinel) is already present; a row with non-empty
`song_url`, such as one added without a prior create, does not trigger
the failure.  When no sentinel is present the sentinel row is inserted,
and a second identical `create_playlist` then reports already-exists,
changes nothing, and exactly one sentinel row remains. -/
theorem create_playlist_sentinel_contract (uid : Int) (args : List String) (db : DB)
    (h : args ≠ []) :
    (sentinelConflict db uid (String.intercalate " " args) = false →
        (create_playlist uid args db).db
          = db ++ [⟨uid, String.intercalate " " args, "", ""⟩]
      ∧ (create_playlist uid args db).replies
          = [Reply.created (String.intercalate " " args)]
      ∧ (create_playlist uid args (create_playlist uid args db).db).replies
          = [Reply.alreadyExists (String.intercalate " " args)]
      ∧ (create_playlist uid args (create_playlist uid args db).db).db
          = (create_playlist uid args db).db
      ∧ sentinelRowCount (create_playlist uid args db).db uid
          (String.intercalate " " args) = 1)
  ∧ (sentinelConflict db uid (String.intercalate " " args) = true →
        (create_playlist uid args db).db = db
      ∧ (create_playlist uid args db).replies
          = [Reply.alreadyExists (String.intercalate " " args)]) := by
  constructor
  · intro hc
    simp only [sentinelConflict] at hc
    have h1 : create_playlist uid args db =
        { db := db ++ [⟨uid, String.intercalate " " args, "", ""⟩],
          replies := [Reply.created (String.intercalate " " args)],
          raised := false, tempFileRemains := false } := by
      simp [create_playlist, if_neg h, insertRow_of_not_conflict hc]
    have hc2 : pkConflict (db ++ [⟨uid, String.intercalate " " args, "", ""⟩])
        ⟨uid, String.intercalate " " args, "", ""⟩ = true := by
      simp [pkConflict, List.any_append, pkMatches_self]
    have h2 : create_playlist uid args (db ++ [⟨uid, String.intercalate " " args, "", ""⟩]) =
        { db := db ++ [⟨uid, String.intercalate " " args, "", ""⟩],
          replies := [Reply.alreadyExists (String.intercalate " " args)],
          raised := false, tempFileRemains := false } := by
      simp [create_playlist, if_neg h, insertRow_of_conflict hc2]
    have hfilter : db.filter
        (fun r => pkMatches ⟨uid, String.intercalate " " args, "", ""⟩ r) = [] := by
      rw [List.filter_eq_nil_iff]
      intro r hr
      have := (pkConflict_eq_false_iff db _).mp hc r hr
      simp [this]
    refine ⟨by rw [h1], by rw [h1], by rw [h1, h2], by rw [h1, h2], ?_⟩
    rw [h1]
    simp [sentinelRowCount, List.filter_append, hfilter, pkMatches_self]
  · intro hc
    simp only [sentinelConflict] at hc
    have h1 : create_playlist uid args db =
        { db := db, replies := [Reply.alreadyExists (String.intercalate " " args)],
          raised := false, tempFileRemains := false } := by
      simp [create_playlist, if_neg h, insertRow_of_conflict hc]
    exact ⟨by rw [h1], by rw [h1]⟩

/-- C2 witness: on the empty database, creating playlist `q` for owner 4
inserts the sentinel row. -/
theorem create_playlist_sentinel_contract_witness :
    (create_playlist 4 ["q"] []).db = [⟨4, "q", "", ""⟩]
  ∧ (create_playlist 4 ["q"] (create_playlist 4 ["q"] []).db).replies
      = [Reply.alreadyExists "q"] := by
  have h := (create_playlist_sentinel_contract 4 ["q"] [] (by decide)).1 (by decide)
  exact ⟨h.1, h.2.2.1⟩

/-- Splitting a list by a Boolean predicate preserves total length. -/
theorem length_filter_not_add {α : Type} (p : α → Bool) (l : List α) :
    (l.filter fun a => !(p a)).length + (l.filter p).length = l.length := by
  induction l with
  | nil => rfl
  | cons a l ih =>
    cases h : p a <;> simp [List.filter_cons, h] <;> omega

/-- C5: `deleteRows` keeps exactly the rows not matching `(owner, name)`,
its count is the number of matching rows, and on a database with no
matching row it changes nothing and reports zero; the `delete_playlist`
handler built on it replies with a confirmation and never raises. -/
theorem delete_playlist_contract (uid : Int) (name : String) (db : DB)
    (args : List String) (h : args ≠ []) (hn : String.intercalate " " args = name) :
    (∀ r ∈ (deleteRows db uid name).1,
        r ∈ db ∧ ¬(r.user_id = uid ∧ r.playlist_name = name))
  ∧ (∀ r ∈ db, ¬(r.user_id = uid ∧ r.playlist_name = name) → r ∈ (deleteRows db uid name).1)
  ∧ (deleteRows db uid name).2
      = (db.filter fun r => r.user_id == uid && r.playlist_name == name).length
  ∧ ((∀ r ∈ db, ¬(r.user_id = uid ∧ r.playlist_name = name)) →
        (deleteRows db uid name).1 = db ∧ (deleteRows db uid name).2 = 0)
  ∧ (delete_playlist uid args db).db = (deleteRows db uid name).1
  ∧ (delete_playlist uid args db).replies = [Reply.deleted name]
  ∧ (delete_playlist uid args db).raised = false := by
  have hlen := length_filter_not_add (fun r : Row => r.user_id == uid && r.playlist_name == name) db
  have hcount : (deleteRows db uid name).2
      = (db.filter fun r => r.user_id == uid && r.playlist_name == name).length := by
    simp only [deleteRows]
    omega
  refine ⟨?_, ?_, hcount, ?_, ?_, ?_, ?_⟩
  · intro r hr
    rw [deleteRows, List.mem_filter] at hr
    refine ⟨hr.1, ?_⟩
    have := hr.2
    simp only [Bool.not_eq_true', Bool.and_eq_false_iff, beq_eq_false_iff_ne, ne_eq] at this
    tauto
  · intro r hr hnot
    rw [deleteRows, List.mem_filter]
    refine ⟨hr, ?_⟩
    simp only [Bool.not_eq_true', Bool.and_eq_false_iff, beq_eq_false_iff_ne, ne_eq]
    tauto
  · intro hall
    have hself : db.filter (fun r => !(r.user_id == uid && r.playlist_name == name)) = db := by
      rw [List.filter_eq_self]
      intro r hr
      simp only [Bool.not_eq_true', Bool.and_eq_false_iff, beq_eq_false_iff_ne, ne_eq]
      have := hall r hr
      tauto
    constructor
    · simp only [deleteRows]
      exact hself
    · simp only [deleteRows, hself]
      omega
  · simp [delete_playlist, if_neg h, hn]
  · simp [delete_playlist, if_neg h, hn]
  · simp [delete_playlist, if_neg h]

/-- C5 witness: deleting playlist `b` for owner 2 from a database holding
only a row of owner 1 removes nothing and counts zero removed rows. -/
theorem delete_playlist_contract_witness :
    (deleteRows [⟨1, "a", "t", "u"⟩] 2 "b").1 = [⟨1, "a", "t", "u"⟩]
  ∧ (deleteRows [⟨1, "a", "t", "u"⟩] 2 "b").2 = 0 := by
  exact (delete_playlist_contract 2 "b" [⟨1, "a", "t", "u"⟩] ["b"] (by decide)
    (by decide)).2.2.2.1 (by decide)

/-- C6: `selectSongs` returns exactly the rows of `(owner, name)` with a
non-empty title: every returned row has a non-empty `song_title` and the
right owner and name, every such row of the database is returned, and a
database whose `(owner, name)` rows are all sentinels, or which has no
row for `(owner, name)` at all, yields the empty list. -/
theorem view_playlist_excludes_sentinels (uid : Int) (name : String) (db : DB) :
    (∀ r ∈ selectSongs db uid name,
        r.song_title ≠ "" ∧ r.user_id = uid ∧ r.playlist_name = name ∧ r ∈ db)
  ∧ (∀ r ∈ db, r.user_id = uid → r.playlist_name = name → r.song_title ≠ "" →
        r ∈ selectSongs db uid name)
  ∧ ((∀ r ∈ db, r.user_id = uid → r.playlist_name = name → r.song_title = "") →
        selectSongs db uid name = []) := by
  refine ⟨?_, ?_, ?_⟩
  · intro r hr
    rw [selectSongs, List.mem_filter] at hr
    have := hr.2
    simp only [Bool.and_eq_true, beq_iff_eq, bne_iff_ne, ne_eq] at this
    exact ⟨this.2, this.1.1, this.1.2, hr.1⟩
  · intro r hr h1 h2 h3
    rw [selectSongs, List.mem_filter]
    refine ⟨hr, ?_⟩
    simp only [Bool.and_eq_true, beq_iff_eq, bne_iff_ne, ne_eq]
    exact ⟨⟨h1, h2⟩, h3⟩
  · intro hall
    rw [selectSongs, List.filter_eq_nil_iff]
    intro r hr hcond
    simp only [Bool.and_eq_true, beq_iff_eq, bne_iff_ne, ne_eq] at hcond
    exact hcond.2 (hall r hr hcond.1.1 hcond.1.2)

/-- C6 witness: a playlist holding only its sentinel row lists no songs,
and a playlist that does not exist lists no songs either. -/
theorem view_playlist_excludes_sentinels_witness :
    selectSongs [⟨1, "Chill", "", ""⟩] 1 "Chill" = []
  ∧ selectSongs [⟨1, "Chill", "", ""⟩] 1 "Jazz" = [] := by
  exact ⟨(view_playlist_excludes_sentinels 1 "Chill" [⟨1, "Chill", "", ""⟩]).2.2 (by decide),
    (view_playlist_excludes_sentinels 1 "Jazz" [⟨1, "Chill", "", ""⟩]).2.2 (by decide)⟩

/-- Database effect of `create_playlist`: unchanged, or one sentinel row
of the invoking owner appended. -/
theorem create_playlist_db_shape (uid : Int) (args : List String) (db : DB) :
    (create_playlist uid args db).db = db
  ∨ (create_playlist uid args db).db
      = db ++ [⟨uid, String.intercalate " " args, "", ""⟩] := by
  by_cases h : args = []
  · left; simp [create_playlist, h]
  · cases hc : pkConflict db ⟨uid, String.intercalate " " args, "", ""⟩ with
    | false => right; simp [create_playlist, if_neg h, insertRow_of_not_conflict hc]
    | true => left; simp [create_playlist, if_neg h, insertRow_of_conflict hc]

/-- Database effect of `add_to_playlist`: unchanged, or one row of the
invoking owner with playlist name `args[0]` appended. -/
theorem add_to_playlist_db_shape (uid : Int) (args : List String) (fetch : FetchOutcome)
    (db : DB) :
    (add_to_playlist uid args fetch db).db = db
  ∨ ∃ t u, (add_to_playlist uid args fetch db).db = db ++ [⟨uid, args.headD "", t, u⟩] := by
  by_cases h : args.length < 2
  · left; simp [add_to_playlist, if_pos h]
  · cases fetch with
    | err e => left; simp [add_to_playlist, if_neg h, download_audio]
    | ok title ext =>
      cases hc : pkConflict db ⟨uid, args.headD "",
          derive_song_title
            (pyReplace (pyReplace (prepare_filename uid title ext) ".webm" ".mp3")
              ".m4a" ".mp3") uid,
          derive_song_url (String.intercalate " " (args.drop 1))⟩ with
      | false =>
        right
        refine ⟨derive_song_title
            (pyReplace (pyReplace (prepare_filename uid title ext) ".webm" ".mp3")
              ".m4a" ".mp3") uid,
          derive_song_url (String.intercalate " " (args.drop 1)), ?_⟩
        simp only [add_to_playlist, download_audio]
        rw [if_neg h, insertRow_of_not_conflict hc]
      | true =>
        left
        simp only [add_to_playlist, download_audio]
        rw [if_neg h, insertRow_of_conflict hc]

/-- Appending a row of another owner does not change an owner's rows. -/
theorem ownerRows_append_other (db : DB) (r : Row) (b : Int) (h : r.user_id ≠ b) :
    ownerRows (db ++ [r]) b = ownerRows db b := by
  have hb : (r.user_id == b) = false := beq_eq_false_iff_ne.mpr h
  simp [ownerRows, List.filter_append, hb]

/-- Deleting rows of owner `a` does not change the rows of owner `b`. -/
theorem ownerRows_filter_other (db : DB) (a b : Int) (hab : a ≠ b) (q : Row → Bool) :
    ownerRows (db.filter fun r => !(r.user_id == a && q r)) b = ownerRows db b := by
  unfold ownerRows
  rw [List.filter_filter]
  apply List.filter_congr
  intro r _
  cases hrb : r.user_id == b with
  | false => simp [hrb]
  | true =>
    have hb : r.user_id = b := beq_iff_eq.mp hrb
    have ha : (r.user_id == a) = false := by
      apply beq_eq_false_iff_ne.mpr
      rw [hb]
      exact Ne.symm hab
    simp [hrb, ha]

/-- C7: store operations of owner `a` never touch the rows of a different
owner `b` (creates and adds append only rows of `a`, deletes filter only
on `a`), the playlist read returns only rows of the requesting owner, and
two different owners can create the same playlist name one after the
other with both receiving the created reply. -/
theorem owner_scoping (a b : Int) (hab : a ≠ b) (argsC argsA argsD : List String)
    (nm : String) (fetch : FetchOutcome) (db : DB) :
    ownerRows (create_playlist a argsC db).db b = ownerRows db b
  ∧ ownerRows (add_to_playlist a argsA fetch db).db b = ownerRows db b
  ∧ ownerRows (delete_playlist a argsD db).db b = ownerRows db b
  ∧ (∀ r ∈ selectSongs db a nm, r.user_id = a)
  ∧ (sentinelConflict db a nm = false → sentinelConflict db b nm = false →
      argsC ≠ [] → String.intercalate " " argsC = nm →
        (create_playlist a argsC db).replies = [Reply.created nm]
      ∧ (create_playlist b argsC (create_playlist a argsC db).db).replies
          = [Reply.created nm]) := by
  refine ⟨?_, ?_, ?_, ?_, ?_⟩
  · rcases create_playlist_db_shape a argsC db with h | h
    · rw [h]
    · rw [h]
      exact ownerRows_append_other db _ b hab
  · rcases add_to_playlist_db_shape a argsA fetch db with h | ⟨t, u, h⟩
    · rw [h]
    · rw [h]
      exact ownerRows_append_other db _ b hab
  · by_cases hD : argsD = []
    · simp [delete_playlist, hD]
    · simp only [delete_playlist, if_neg hD, deleteRows]
      exact ownerRows_filter_other db a b hab _
  · intro r hr
    rw [selectSongs, List.mem_filter] at hr
    have := hr.2
    simp only [Bool.and_eq_true, beq_iff_eq] at this
    exact this.1.1
  · intro hca hcb hC hjoin
    simp only [sentinelConflict] at hca hcb
    have h1 : create_playlist a argsC db =
        { db := db ++ [⟨a, nm, "", ""⟩], replies := [Reply.created nm],
          raised := false, tempFileRemains := false } := by
      simp [create_playlist, if_neg hC, hjoin, insertRow_of_not_conflict hca]
    have hc2 : pkConflict (db ++ [(⟨a, nm, "", ""⟩ : Row)]) ⟨b, nm, "", ""⟩ = false := by
      have hba : (b == a) = false := beq_eq_false_iff_ne.mpr (Ne.symm hab)
      simp only [pkConflict, List.any_append, List.any_cons, List.any_nil] at hcb ⊢
      simp [hcb, pkMatches, hba]
    have h2 : create_playlist b argsC (db ++ [(⟨a, nm, "", ""⟩ : Row)]) =
        { db := db ++ [⟨a, nm, "", ""⟩] ++ [⟨b, nm, "", ""⟩],
          replies := [Reply.created nm], raised := false, tempFileRemains := false } := by
      simp [create_playlist, if_neg hC, hjoin, insertRow_of_not_conflict hc2]
    exact ⟨by rw [h1], by rw [h1, h2]⟩

/-- C7 witness: owners 1 and 2 both create playlist `X` in turn and both
receive the created reply. -/
theorem owner_scoping_witness :
    (create_playlist 1 ["X"] []).replies = [Reply.created "X"]
  ∧ (create_playlist 2 ["X"] (create_playlist 1 ["X"] []).db).replies
      = [Reply.created "X"] := by
  exact (owner_scoping 1 2 (by decide) ["X"] [] [] "X" (FetchOutcome.err "e") []).2.2.2.2
    (by decide) (by decide) (by decide) (by decide)

/-- C8 (amended): on the bare-text branch with non-empty stripped text and
a successful resolve, the temp file is deleted only on the path where the
audio delivery succeeds; when delivery raises, the handler aborts with the
temp file still on disk, because `os.remove` runs after the delivery call
rather than in a scoped release. -/
theorem handle_message_cleanup_ordering (uid : Int) (text : String) (title ext : String)
    (db : DB) (h : pyStrip text ≠ "") :
    (handle_message uid text (FetchOutcome.ok title ext) true db).tempFileRemains = false
  ∧ (handle_message uid text (FetchOutcome.ok title ext) true db).replies
      = [Reply.downloading, Reply.audio title]
  ∧ (handle_message uid text (FetchOutcome.ok title ext) true db).raised = false
  ∧ (handle_message uid text (FetchOutcome.ok title ext) false db).tempFileRemains = true
  ∧ (handle_message uid text (FetchOutcome.ok title ext) false db).raised = true := by
  refine ⟨?_, ?_, ?_, ?_, ?_⟩ <;> simp [handle_message, download_audio, h]

/-- C8 witness: a successful search resolve followed by a successful
delivery leaves no temp file behind. -/
theorem handle_message_cleanup_ordering_witness :
    (handle_message 1 "lofi" (FetchOutcome.ok "lofi" "webm") true []).tempFileRemains = false := by
  exact (handle_message_cleanup_ordering 1 "lofi" "lofi" "webm" [] (by decide)).1

/-- C9: `download_audio` turns every fetch exception into the pair
`(none, message)` carrying the human-readable cause, returns a filename on
every successful fetch, and a `none` result can only come from a fetch
failure whose message is returned unchanged; the model is a total
function, reflecting the `try/except Exception` wrapper that prevents any
fault from escaping to the caller. -/
theorem download_audio_failure_contract (q : String) (uid : Int) (msg title ext : String) :
    download_audio q uid (FetchOutcome.err msg) = (none, msg)
  ∧ (download_audio q uid (FetchOutcome.ok title ext)).1
      = some (pyReplace (pyReplace (prepare_filename uid title ext) ".webm" ".mp3")
          ".m4a" ".mp3")
  ∧ (∀ fetch, (download_audio q uid fetch).1 = none →
      ∃ e, fetch = FetchOutcome.err e ∧ (download_audio q uid fetch).2 = e) := by
  refine ⟨rfl, rfl, ?_⟩
  intro fetch hf
  cases fetch with
  | ok t e => simp [download_audio] at hf
  | err e => exact ⟨e, rfl, rfl⟩

/-- C9 witness: a network error message is returned as the failure cause. -/
theorem download_audio_failure_contract_witness :
    download_audio "abc" 9 (FetchOutcome.err "network error") = (none, "network error") := by
  exact (download_audio_failure_contract "abc" 9 "network error" "t" "mp3").1

/-- C10: for a playlist name containing a space, `create_playlist`,
`delete_playlist` and `view_playlist` address it through the space-join of
their arguments, but `add_to_playlist`, whose playlist name is only
`args[0]` and whose arguments are whitespace-delimited tokens, can never
insert a row with that name: every row of the database after any `add`
with that name was already there. -/
theorem add_cannot_target_spaced_names (uid : Int) (nm : String)
    (hspace : ' ' ∈ nm.data)
    (argsC : List String) (hjoin : String.intercalate " " argsC = nm)
    (argsA : List String) (hA : ∀ s ∈ argsA, ' ' ∉ s.data)
    (fetch : FetchOutcome) (db : DB) :
    (sentinelConflict db uid nm = false →
        (create_playlist uid argsC db).db = db ++ [⟨uid, nm, "", ""⟩])
  ∧ (delete_playlist uid argsC db).db
      = db.filter (fun r => !(r.user_id == uid && r.playlist_name == nm))
  ∧ (selectSongs db uid nm = [] → (view_playlist uid argsC db).replies = [Reply.noSongs nm])
  ∧ (∀ r ∈ (add_to_playlist uid argsA fetch db).db, r.playlist_name = nm → r ∈ db) := by
  have hC : argsC ≠ [] := by
    intro h0
    rw [h0] at hjoin
    have hnm : nm = "" := by rw [← hjoin]; decide
    rw [hnm] at hspace
    exact absurd hspace (by decide)
  refine ⟨?_, ?_, ?_, ?_⟩
  · intro hc
    simp only [sentinelConflict] at hc
    simp [create_playlist, if_neg hC, hjoin, insertRow_of_not_conflict hc]
  · simp [delete_playlist, if_neg hC, hjoin, deleteRows]
  · intro hsel
    simp [view_playlist, if_neg hC, hjoin, hsel]
  · intro r hr hname
    rcases add_to_playlist_db_shape uid argsA fetch db with h | ⟨t, u, h⟩
    · rwa [h] at hr
    · rw [h] at hr
      rcases List.mem_append.mp hr with h1 | h1
      · exact h1
      · exfalso
        have hre : r = ⟨uid, argsA.headD "", t, u⟩ := by simpa using h1
        subst hre
        have hhead : ' ' ∉ (argsA.headD "").data := by
          cases argsA with
          | nil => decide
          | cons x xs => exact hA x (List.mem_cons_self x xs)
        rw [← hname] at hspace
        exact hhead hspace

/-- C10 witness: the two-token create builds the spaced name `a b`, and
the delete addressed by the same tokens removes its rows. -/
theorem add_cannot_target_spaced_names_witness :
    (create_playlist 7 ["a", "b"] []).db = [⟨7, "a b", "", ""⟩]
  ∧ (delete_playlist 7 ["a", "b"] [⟨7, "a b", "", ""⟩]).db = [] := by
  constructor
  · exact (add_cannot_target_spaced_names 7 "a b" (by decide) ["a", "b"] (by decide)
      ["x", "https://y"] (by decide) (FetchOutcome.ok "t" "mp3") []).1 (by decide)
  · exact ((add_cannot_target_spaced_names 7 "a b" (by decide) ["a", "b"] (by decide)
      ["x", "https://y"] (by decide) (FetchOutcome.ok "t" "mp3")
      [⟨7, "a b", "", ""⟩]).2.1).trans (by decide)

end YoutubeAudioBot
